import Mathlib

/-!
Verification development for the synthetic dental dataset generators of
this repository: `scripts/create_dental_dataset.py` (fixed-box generator)
and `train_dental_yolo.py` (multi-label generator).

Python float values are modelled as exact rationals (`ℚ`),
`random.uniform a b` as `a + u * (b - a)` for a seed `u ∈ [0,1]`,
`random.choice` and `random.sample` as universally quantified inputs
constrained to the class list, and `int(x)` for nonnegative `x` as
`⌊x⌋.toNat`.  Where a float product is truncated to an integer the IEEE-754
binary64 semantics matters, so that product is modelled through `fpRound`,
correct rounding (round to nearest, ties to even) to a 53-bit significand.
File-system effects are modelled by an explicit state of directory and
file paths.
-/

/-- Left-pad a string with the zero character up to width `k`
(the Python `04d` format: pads, never truncates). -/
def zeroPad (k : Nat) (s : String) : String :=
  String.mk (List.replicate (k - s.length) '0') ++ s

/-- Fixed-point rendering of a rational with six decimals (the Python
`.6f` format spec, for the nonnegative values the generators produce). -/
def format6 (q : ℚ) : String :=
  toString (⌊q * 1000000 + 1/2⌋ / 1000000) ++ "."
    ++ zeroPad 6 (toString (⌊q * 1000000 + 1/2⌋ % 1000000))

/-- A YOLO annotation record: class index plus normalized box
(center-x, center-y, width, height). -/
structure Ann where
  classId : ℕ
  xc : ℚ
  yc : ℚ
  w : ℚ
  h : ℚ

/-- The space-separated line written for one annotation record:
`class_id cx cy w h` with six-decimal floats, as in both generators'
f-strings. -/
def annLine (a : Ann) : String :=
  toString a.classId ++ " " ++ format6 a.xc ++ " " ++ format6 a.yc ++ " "
    ++ format6 a.w ++ " " ++ format6 a.h

/-- Python `max(lo, min(hi, x))` clamping used by the fixed-box generator. -/
def clampQ (lo hi x : ℚ) : ℚ := max lo (min hi x)

/-- Python `random.uniform lo hi` as a function of a seed `u ∈ [0,1]`. -/
def uniformQ (lo hi u : ℚ) : ℚ := lo + u * (hi - lo)

/-- Round a rational to the nearest integer, ties to even (the IEEE-754
default rounding applied to a scaled significand). -/
def rne (q : ℚ) : ℤ :=
  if q - ⌊q⌋ < 1/2 then ⌊q⌋
  else if 1/2 < q - ⌊q⌋ then ⌊q⌋ + 1
  else if ⌊q⌋ % 2 = 0 then ⌊q⌋ else ⌊q⌋ + 1

/-- The IEEE-754 binary64 value nearest to `q`, for the nonnegative
normal-range values arising here: the significand `q / 2 ^ (e - 52)`
(with `e` the binary exponent of `q`) is rounded to the nearest integer,
ties to even, and scaled back. -/
def fpRound (q : ℚ) : ℚ :=
  if q = 0 then 0
  else (rne (q / 2 ^ (Int.log 2 q - 52)) : ℚ) * 2 ^ (Int.log 2 q - 52)

/-- Bounds the spec asserts for every emitted annotation: class index
below the class count, centers in `[0,1]`, extents in `[0.1, 0.8]`. -/
def annInRange (nc : ℕ) (a : Ann) : Prop :=
  a.classId < nc ∧ 0 ≤ a.xc ∧ a.xc ≤ 1 ∧ 0 ≤ a.yc ∧ a.yc ≤ 1
    ∧ 1/10 ≤ a.w ∧ a.w ≤ 4/5 ∧ 1/10 ≤ a.h ∧ a.h ≤ 4/5

/-- All four edges of the normalized box of `a` lie within the given
horizontal band `[xlo, xhi]` and vertical band `[ylo, yhi]`. -/
def boxEdgesWithin (a : Ann) (xlo xhi ylo yhi : ℚ) : Prop :=
  xlo ≤ a.xc - a.w/2 ∧ a.xc - a.w/2 ≤ xhi
    ∧ xlo ≤ a.xc + a.w/2 ∧ a.xc + a.w/2 ≤ xhi
    ∧ ylo ≤ a.yc - a.h/2 ∧ a.yc - a.h/2 ≤ yhi
    ∧ ylo ≤ a.yc + a.h/2 ∧ a.yc + a.h/2 ≤ yhi

namespace CreateDentalDataset

/-- The fixed class enumeration of `create_dental_dataset.py`
(`create_dataset`, lines 152-155). -/
def classes : List String :=
  ["cavity", "gingivitis", "discoloration", "plaque", "tartar",
   "dead_tooth", "chipped", "misaligned", "healthy_tooth", "gum_inflammation"]

/-- Embedding of `create_annotation(image_path, condition, class_id, ...)`
(lines 116-138): a fixed box at (0.5, 0.45) of size 0.6 x 0.3, jittered
for the conditions misaligned (center-x by `uniform(-0.1, 0.1)`, width by
`uniform(-0.05, 0.05)`; seeds `u1`, `u2`) and chipped (height by
`uniform(-0.05, 0.05)`; seed `u1`), then clamped field by field exactly
as in the source (`x_center` to `[0,1]`, `y_center` to `[0,1]`, `width`
to `[0.1, 0.8]`, `height` to `[0.1, 0.5]`).  `image_path` is a parameter
the source body never reads. -/
def createAnn (image_path : String) (condition : String) (class_id : ℕ)
    (u1 u2 : ℚ) : Ann :=
  let x_center : ℚ := 1/2
  let y_center : ℚ := 9/20
  let width : ℚ := 3/5
  let height : ℚ := 3/10
  let x_center : ℚ :=
    if condition = "misaligned" then x_center + uniformQ (-1/10) (1/10) u1
    else x_center
  let width : ℚ :=
    if condition = "misaligned" then width + uniformQ (-1/20) (1/20) u2
    else width
  let height : ℚ :=
    if condition = "chipped" then height + uniformQ (-1/20) (1/20) u1
    else height
  { classId := class_id
    xc := clampQ 0 1 x_center
    yc := clampQ 0 1 y_center
    w := clampQ (1/10) (4/5) width
    h := clampQ (1/10) (1/2) height }

/-- Number of training samples: `int(num_images * train_split)`
(line 158).  The multiplication is the program's IEEE-754 binary64
product: the exact product of the total (exactly representable for any
realistic count) and the stored double split, correctly rounded to 53
bits, then truncated; truncation is `⌊·⌋.toNat` for these nonnegative
values. -/
def num_train (num_images : ℕ) (train_split : ℚ) : ℕ :=
  (⌊fpRound ((num_images : ℚ) * train_split)⌋).toNat

/-- Number of validation samples: `num_images - num_train` (line 159). -/
def num_val (num_images : ℕ) (train_split : ℚ) : ℕ :=
  num_images - num_train num_images train_split

/-- The common stem of the two filenames written for training sample `i`. -/
def train_stem (i : ℕ) : String := "train_" ++ zeroPad 4 (toString i)

/-- The common stem of the two filenames written for validation sample `i`. -/
def val_stem (i : ℕ) : String := "val_" ++ zeroPad 4 (toString i)

/-- Training image filename `train_{i:04d}.jpg` (line 175). -/
def train_img_name (i : ℕ) : String :=
  "train_" ++ zeroPad 4 (toString i) ++ ".jpg"

/-- Training label filename `train_{i:04d}.txt` (line 183). -/
def train_lbl_name (i : ℕ) : String :=
  "train_" ++ zeroPad 4 (toString i) ++ ".txt"

/-- Validation image filename `val_{i:04d}.jpg` (line 200). -/
def val_img_name (i : ℕ) : String :=
  "val_" ++ zeroPad 4 (toString i) ++ ".jpg"

/-- Validation label filename `val_{i:04d}.txt` (line 208). -/
def val_lbl_name (i : ℕ) : String :=
  "val_" ++ zeroPad 4 (toString i) ++ ".txt"

/-- Paths of the image files written by the training loop (lines 167-177). -/
def train_image_files (out : String) (N : ℕ) (f : ℚ) : List String :=
  (List.range (num_train N f)).map
    (fun i => out ++ "/images/train/" ++ train_img_name i)

/-- Paths of the label files written by the training loop (lines 183-186). -/
def train_label_files (out : String) (N : ℕ) (f : ℚ) : List String :=
  (List.range (num_train N f)).map
    (fun i => out ++ "/labels/train/" ++ train_lbl_name i)

/-- Paths of the image files written by the validation loop (lines 192-202). -/
def val_image_files (out : String) (N : ℕ) (f : ℚ) : List String :=
  (List.range (num_val N f)).map
    (fun i => out ++ "/images/val/" ++ val_img_name i)

/-- Paths of the label files written by the validation loop (lines 208-211). -/
def val_label_files (out : String) (N : ℕ) (f : ℚ) : List String :=
  (List.range (num_val N f)).map
    (fun i => out ++ "/labels/val/" ++ val_lbl_name i)

end CreateDentalDataset

namespace TrainDentalYolo

/-- The fixed class enumeration of `train_dental_yolo.py`
(`DentalDatasetGenerator.__init__`, lines 37-40; note `healthy` in place
of `healthy_tooth`). -/
def classes : List String :=
  ["cavity", "gingivitis", "discoloration", "plaque", "tartar",
   "dead_tooth", "chipped", "misaligned", "healthy", "gum_inflammation"]

/-- One random draw of `generate_synthetic_dental_image`: a sampled
condition plus the four `random.uniform` seeds of its placement. -/
structure Draw where
  cond : String
  u1 : ℚ
  u2 : ℚ
  u3 : ℚ
  u4 : ℚ

/-- The annotation built for one condition in
`generate_synthetic_dental_image` (lines 79-91): center-x from
`uniform(0.2, 0.8)`, center-y from `uniform(0.3, 0.7)`, width and height
from `uniform(0.1, 0.3)`, class id `self.classes.index(condition)`.  No
clamping is applied. -/
def synthAnn (condition : String) (u1 u2 u3 u4 : ℚ) : Ann :=
  { classId := classes.indexOf condition
    xc := uniformQ (1/5) (4/5) u1
    yc := uniformQ (3/10) (7/10) u2
    w := uniformQ (1/10) (3/10) u3
    h := uniformQ (1/10) (3/10) u4 }

/-- The annotation of one draw. -/
def synthAnnOf (d : Draw) : Ann := synthAnn d.cond d.u1 d.u2 d.u3 d.u4

/-- The annotation list accumulated by the loop of
`generate_synthetic_dental_image` over the drawn conditions (lines
73-93): one `annotations.append` per condition, in draw order. -/
def gen_synth_anns (draws : List Draw) : List Ann :=
  draws.map synthAnnOf

/-- The lines of the label file for one image: each annotation rendered
by the generator's f-string, in list order; the file itself is their
newline join (lines 174-175). -/
def label_file_lines (anns : List Ann) : List String :=
  anns.map annLine

/-- The label file content: `'\n'.join(annotations)` (line 175). -/
def label_file_content (anns : List Ann) : String :=
  String.intercalate "\n" (label_file_lines anns)

/-- Number of training samples: `int(self.num_images * 0.8)` (line 161),
with the literal `0.8` as the binary64 value nearest `4/5` and the
product computed and truncated in binary64, as in the source. -/
def train_count (num_images : ℕ) : ℕ :=
  (⌊fpRound ((num_images : ℚ) * fpRound (4/5))⌋).toNat

/-- Number of validation samples: `self.num_images - train_count`
(line 162). -/
def val_count (num_images : ℕ) : ℕ :=
  num_images - train_count num_images

/-- Common stem of training sample `i`'s filenames. -/
def train_stem (i : ℕ) : String := "train_" ++ zeroPad 4 (toString i)

/-- Common stem of validation sample `i`'s filenames. -/
def val_stem (i : ℕ) : String := "val_" ++ zeroPad 4 (toString i)

/-- Training image filename `train_{i:04d}.jpg` (line 169). -/
def train_img_name (i : ℕ) : String :=
  "train_" ++ zeroPad 4 (toString i) ++ ".jpg"

/-- Training label filename `train_{i:04d}.txt` (line 173). -/
def train_lbl_name (i : ℕ) : String :=
  "train_" ++ zeroPad 4 (toString i) ++ ".txt"

/-- Validation image filename `val_{i:04d}.jpg` (line 185). -/
def val_img_name (i : ℕ) : String :=
  "val_" ++ zeroPad 4 (toString i) ++ ".jpg"

/-- Validation label filename `val_{i:04d}.txt` (line 189). -/
def val_lbl_name (i : ℕ) : String :=
  "val_" ++ zeroPad 4 (toString i) ++ ".txt"

/-- Image paths written by the training loop (lines 165-170). -/
def train_image_files (out : String) (N : ℕ) : List String :=
  (List.range (train_count N)).map
    (fun i => out ++ "/images/train/" ++ train_img_name i)

/-- Label paths written by the training loop (lines 173-175). -/
def train_label_files (out : String) (N : ℕ) : List String :=
  (List.range (train_count N)).map
    (fun i => out ++ "/labels/train/" ++ train_lbl_name i)

/-- Image paths written by the validation loop (lines 181-186). -/
def val_image_files (out : String) (N : ℕ) : List String :=
  (List.range (val_count N)).map
    (fun i => out ++ "/images/val/" ++ val_img_name i)

/-- Label paths written by the validation loop (lines 189-191). -/
def val_label_files (out : String) (N : ℕ) : List String :=
  (List.range (val_count N)).map
    (fun i => out ++ "/labels/val/" ++ val_lbl_name i)

end TrainDentalYolo

/-- The manifest written as `dataset.yaml`: mapping of path, train, val,
nc and names (both scripts build the same dictionary shape). -/
structure DatasetYaml where
  path : String
  train : String
  val : String
  nc : ℕ
  names : List String

namespace CreateDentalDataset

/-- The `dataset_config` dictionary of `create_dataset` (lines 217-223). -/
def create_dataset_yaml (out : String) : DatasetYaml :=
  { path := out
    train := "images/train"
    val := "images/val"
    nc := classes.length
    names := classes }

end CreateDentalDataset

namespace TrainDentalYolo

/-- The `dataset_config` dictionary of
`DentalDatasetGenerator.create_dataset_yaml` (lines 202-208). -/
def create_dataset_yaml (out : String) : DatasetYaml :=
  { path := out
    train := "images/train"
    val := "images/val"
    nc := classes.length
    names := classes }

end TrainDentalYolo

/-- File-system state: the set of existing directories and of existing
file paths, each kept as a duplicate-free list. -/
structure FS where
  dirs : List String
  files : List String

/-- Python `Path.mkdir(parents=True, exist_ok=ok)`: succeeds silently on
an existing directory when `ok` is true, raises `FileExistsError`
otherwise, creates the directory when absent. -/
def mkdir (fs : FS) (d : String) (ok : Bool) : Except String FS :=
  if d ∈ fs.dirs then
    if ok then .ok fs else .error ("FileExistsError: " ++ d)
  else .ok { fs with dirs := fs.dirs ++ [d] }

/-- Total form of `mkdir` with `exist_ok=True`. -/
def mkdirT (fs : FS) (d : String) : FS :=
  if d ∈ fs.dirs then fs else { fs with dirs := fs.dirs ++ [d] }

/-- Python `open(p, 'w')` followed by a write: creates the file when
absent, silently overwrites it when present; on the path-set state the
overwrite leaves the set unchanged. -/
def write_file (fs : FS) (p : String) : FS :=
  if p ∈ fs.files then fs else { fs with files := fs.files ++ [p] }

namespace CreateDentalDataset

/-- All file paths `create_dataset` writes for a run: training pairs,
validation pairs, and the manifest. -/
def all_output_files (out : String) (N : ℕ) (f : ℚ) : List String :=
  train_image_files out N f ++ train_label_files out N f
    ++ val_image_files out N f ++ val_label_files out N f
    ++ [out ++ "/dataset.yaml"]

/-- The file-system effect of `create_dataset(output_dir, num_images,
train_split)` (lines 140-227): create the four split directories with
`parents=True, exist_ok=True` (lines 146-149), then write every image,
label and manifest file. -/
def create_dataset_run (fs : FS) (out : String) (N : ℕ) (f : ℚ) :
    Except String FS :=
  (mkdir fs (out ++ "/images/train") true).bind fun fs1 =>
  (mkdir fs1 (out ++ "/images/val") true).bind fun fs2 =>
  (mkdir fs2 (out ++ "/labels/train") true).bind fun fs3 =>
  (mkdir fs3 (out ++ "/labels/val") true).bind fun fs4 =>
  .ok ((all_output_files out N f).foldl write_file fs4)

/-- The `main()` of `create_dental_dataset.py` (lines 242-296): after
argument parsing it validates `0.5 <= train_split <= 0.9` and exits with
status 1 before touching the file system when the check fails; otherwise
it runs `create_dataset` and exits 0.  Returns the exit status and the
resulting file-system state. -/
def main_run (out : String) (count : ℕ) (f : ℚ) (fs : FS) : ℕ × FS :=
  if 1/2 ≤ f ∧ f ≤ 9/10 then
    match create_dataset_run fs out count f with
    | .ok fs1 => (0, fs1)
    | .error _ => (1, fs)
  else (1, fs)

end CreateDentalDataset

/-- Outcome of a call into the third-party library: normal return, or an
exception carrying a message. -/
inductive LibOutcome where
  | ok : LibOutcome
  | raises : String → LibOutcome

/-- Embedding of `train_yolo_model` (`train_dental_yolo.py`, lines
217-259): the whole body is one `try` block returning `True` on success;
any exception is caught at the call site, one human-readable diagnostic
is printed, and `False` is returned.  The library behaviour is the
`LibOutcome` parameter; the result is the returned boolean paired with
the diagnostic lines printed after the attempt. -/
def train_yolo_model (outcome : LibOutcome) : Bool × List String :=
  match outcome with
  | .ok => (true, ["Training completed successfully!"])
  | .raises msg => (false, ["Training failed: " ++ msg])

/-- Embedding of `convert_to_coreml` (lines 261-299): one `try` block;
an exception yields a printed diagnostic and `False`; a normal export
returns `True` when an `.mlpackage` file is found and `False` (with a
diagnostic) when not. -/
def convert_to_coreml (outcome : LibOutcome) (found : Bool) :
    Bool × List String :=
  match outcome with
  | .raises msg => (false, ["CoreML conversion failed: " ++ msg])
  | .ok =>
    if found then (true, ["CoreML conversion successful!"])
    else (false, ["CoreML file not found after export"])

/-- The `main()` of `train_dental_yolo.py` (lines 301-348): dataset
generation, then training, then conversion; each stage's `False` result
is surfaced as exit status 1, and 0 is returned when both succeed.  Each
stage is invoked exactly once on its single library outcome. -/
def yolo_main (tOut : LibOutcome) (cOut : LibOutcome) (found : Bool) : ℕ :=
  if (train_yolo_model tOut).1 = false then 1
  else if (convert_to_coreml cOut found).1 = false then 1
  else 0

/-- Evaluation lemma: six-decimal rendering of one half. -/
theorem format6_half : format6 (1/2) = "0.500000" := by
  have h : ⌊(1/2 : ℚ) * 1000000 + 1/2⌋ = 500000 := by norm_num
  unfold format6
  rw [h]
  decide

/-- Evaluation lemma: six-decimal rendering of nine twentieths. -/
theorem format6_nine_twentieths : format6 (9/20) = "0.450000" := by
  have h : ⌊(9/20 : ℚ) * 1000000 + 1/2⌋ = 450000 := by norm_num
  unfold format6
  rw [h]
  decide

/-- Evaluation lemma: six-decimal rendering of three fifths. -/
theorem format6_three_fifths : format6 (3/5) = "0.600000" := by
  have h : ⌊(3/5 : ℚ) * 1000000 + 1/2⌋ = 600000 := by norm_num
  unfold format6
  rw [h]
  decide

/-- Evaluation lemma: six-decimal rendering of three tenths. -/
theorem format6_three_tenths : format6 (3/10) = "0.300000" := by
  have h : ⌊(3/10 : ℚ) * 1000000 + 1/2⌋ = 300000 := by norm_num
  unfold format6
  rw [h]
  decide

/-- Lower bound of the clamp. -/
theorem clampQ_lo_le (lo hi x : ℚ) : lo ≤ clampQ lo hi x := le_max_left _ _

/-- Upper bound of the clamp, assuming the interval is ordered. -/
theorem clampQ_le_hi (lo hi x : ℚ) (h : lo ≤ hi) : clampQ lo hi x ≤ hi :=
  max_le h (min_le_left _ _)

/-- Every annotation of the fixed-box generator satisfies the range
bounds, for any class id below the class count: each field is clamped
into its interval by `create_annotation` itself. -/
theorem createAnn_in_range (path cond : String) (cid : ℕ) (u1 u2 : ℚ)
    (hcid : cid < CreateDentalDataset.classes.length) :
    annInRange CreateDentalDataset.classes.length
      (CreateDentalDataset.createAnn path cond cid u1 u2) := by
  unfold annInRange CreateDentalDataset.createAnn
  dsimp only
  exact ⟨hcid,
    clampQ_lo_le _ _ _, clampQ_le_hi _ _ _ (by norm_num),
    clampQ_lo_le _ _ _, clampQ_le_hi _ _ _ (by norm_num),
    clampQ_lo_le _ _ _, clampQ_le_hi _ _ _ (by norm_num),
    clampQ_lo_le _ _ _,
    le_trans (clampQ_le_hi _ _ _ (by norm_num)) (by norm_num)⟩

/-- Every annotation of the multi-label generator satisfies the range
bounds when its uniform seeds lie in `[0,1]` and the condition comes from
the class list. -/
theorem synthAnn_in_range (cond : String) (u1 u2 u3 u4 : ℚ)
    (hmem : cond ∈ TrainDentalYolo.classes)
    (h1 : 0 ≤ u1) (h1' : u1 ≤ 1) (h2 : 0 ≤ u2) (h2' : u2 ≤ 1)
    (h3 : 0 ≤ u3) (h3' : u3 ≤ 1) (h4 : 0 ≤ u4) (h4' : u4 ≤ 1) :
    annInRange TrainDentalYolo.classes.length
      (TrainDentalYolo.synthAnn cond u1 u2 u3 u4) := by
  unfold annInRange TrainDentalYolo.synthAnn uniformQ
  dsimp only
  refine ⟨List.indexOf_lt_length.2 hmem, by nlinarith, by nlinarith, by nlinarith,
    by nlinarith, by nlinarith, by nlinarith, by nlinarith, by nlinarith⟩

/-- With `exist_ok` true, `mkdir` never fails and acts as `mkdirT`. -/
theorem mkdir_true_eq (fs : FS) (d : String) :
    mkdir fs d true = .ok (mkdirT fs d) := by
  unfold mkdir mkdirT
  split <;> simp

/-- Writing a file leaves the directory set unchanged. -/
theorem write_file_dirs (fs : FS) (p : String) :
    (write_file fs p).dirs = fs.dirs := by
  unfold write_file
  split <;> rfl

/-- Writing a batch of files leaves the directory set unchanged. -/
theorem foldl_write_dirs (L : List String) (fs : FS) :
    (L.foldl write_file fs).dirs = fs.dirs := by
  induction L generalizing fs with
  | nil => rfl
  | cons p L ih => rw [List.foldl_cons, ih, write_file_dirs]

/-- A present file stays present through a write. -/
theorem write_file_mem_mono (fs : FS) (p q : String) (h : q ∈ fs.files) :
    q ∈ (write_file fs p).files := by
  unfold write_file
  split
  · exact h
  · exact List.mem_append_left _ h

/-- The written file is present afterwards. -/
theorem write_file_mem_self (fs : FS) (p : String) :
    p ∈ (write_file fs p).files := by
  unfold write_file
  split
  · assumption
  · exact List.mem_append_right _ (List.mem_singleton.2 rfl)

/-- A present file stays present through a batch of writes. -/
theorem foldl_write_mem_mono (L : List String) (fs : FS) (q : String)
    (h : q ∈ fs.files) : q ∈ (L.foldl write_file fs).files := by
  induction L generalizing fs with
  | nil => exact h
  | cons p L ih => exact ih _ (write_file_mem_mono _ _ _ h)

/-- After a batch of writes, every written path is present. -/
theorem foldl_write_mem_all (L : List String) (fs : FS) (p : String)
    (h : p ∈ L) : p ∈ (L.foldl write_file fs).files := by
  induction L generalizing fs with
  | nil => cases h
  | cons q L ih =>
    rw [List.foldl_cons]
    rcases List.mem_cons.1 h with h | h
    · exact foldl_write_mem_mono _ _ _ (h ▸ write_file_mem_self fs q)
    · exact ih _ h

/-- Overwriting a present file does not change the path-set state. -/
theorem write_file_of_mem (fs : FS) (p : String) (h : p ∈ fs.files) :
    write_file fs p = fs := by
  unfold write_file
  rw [if_pos h]

/-- A batch of writes over already-present paths is the identity. -/
theorem foldl_write_of_all_mem (L : List String) (fs : FS)
    (h : ∀ p ∈ L, p ∈ fs.files) : L.foldl write_file fs = fs := by
  induction L with
  | nil => rfl
  | cons p L ih =>
    rw [List.foldl_cons, write_file_of_mem _ _ (h p (List.mem_cons_self _ _))]
    exact ih fun q hq => h q (List.mem_cons_of_mem _ hq)

/-- A present directory stays present through `mkdirT`. -/
theorem mkdirT_mem_mono (fs : FS) (d e : String) (h : d ∈ fs.dirs) :
    d ∈ (mkdirT fs e).dirs := by
  unfold mkdirT
  split
  · exact h
  · exact List.mem_append_left _ h

/-- The created directory is present afterwards. -/
theorem mkdirT_mem_self (fs : FS) (d : String) : d ∈ (mkdirT fs d).dirs := by
  unfold mkdirT
  split
  · assumption
  · exact List.mem_append_right _ (List.mem_singleton.2 rfl)

/-- Creating a present directory with `exist_ok` is the identity. -/
theorem mkdirT_of_mem (fs : FS) (d : String) (h : d ∈ fs.dirs) :
    mkdirT fs d = fs := by
  unfold mkdirT
  rw [if_pos h]

/-- `mkdirT` does not touch the file set. -/
theorem mkdirT_files (fs : FS) (d : String) : (mkdirT fs d).files = fs.files := by
  unfold mkdirT
  split <;> rfl

/-- Normal form of a `create_dataset` run: the four `exist_ok` directory
creations never fail, then every output file is written. -/
theorem create_dataset_run_eq (fs : FS) (out : String) (N : ℕ) (f : ℚ) :
    CreateDentalDataset.create_dataset_run fs out N f
      = .ok ((CreateDentalDataset.all_output_files out N f).foldl write_file
          (mkdirT (mkdirT (mkdirT (mkdirT fs (out ++ "/images/train"))
            (out ++ "/images/val")) (out ++ "/labels/train"))
            (out ++ "/labels/val"))) := by
  unfold CreateDentalDataset.create_dataset_run
  simp only [mkdir_true_eq, Except.bind]

/-- Claim C10: for every condition other than misaligned and chipped,
`create_annotation` returns exactly the constant line
`class_id 0.500000 0.450000 0.600000 0.300000`, independently of the
random seeds and of the `image_path` argument. -/
theorem C10_fixed_box_constant_line (path cond : String) (cid : ℕ)
    (u1 u2 : ℚ) (hm : cond ≠ "misaligned") (hc : cond ≠ "chipped") :
    annLine (CreateDentalDataset.createAnn path cond cid u1 u2)
      = toString cid ++ " 0.500000 0.450000 0.600000 0.300000" := by
  have hx : clampQ 0 1 (1/2 : ℚ) = 1/2 := by
    unfold clampQ
    norm_num
  have hy : clampQ 0 1 (9/20 : ℚ) = 9/20 := by
    unfold clampQ
    norm_num
  have hw : clampQ (1/10) (4/5) (3/5 : ℚ) = 3/5 := by
    unfold clampQ
    norm_num
  have hh : clampQ (1/10) (1/2) (3/10 : ℚ) = 3/10 := by
    unfold clampQ
    norm_num
  simp only [CreateDentalDataset.createAnn, if_neg hm, if_neg hc]
  unfold annLine
  dsimp only
  rw [hx, hy, hw, hh, format6_half, format6_nine_twentieths,
    format6_three_fifths, format6_three_tenths]
  simp only [String.append_assoc]
  congr 1

/-- Claim C10 witness: at class id 0 and condition cavity the emitted
line is the constant one. -/
theorem C10_witness :
    annLine (CreateDentalDataset.createAnn "img.jpg" "cavity" 0 0 1)
      = toString 0 ++ " 0.500000 0.450000 0.600000 0.300000" :=
  C10_fixed_box_constant_line "img.jpg" "cavity" 0 0 1
    (by decide) (by decide)

/-- Claim C4: for every run, each script's manifest lists exactly the
class names of its fixed enumeration, in order, and its `nc` field equals
the length of that list. -/
theorem C4_manifest_matches_classes (out : String) :
    (CreateDentalDataset.create_dataset_yaml out).names
        = CreateDentalDataset.classes
      ∧ (CreateDentalDataset.create_dataset_yaml out).nc
        = (CreateDentalDataset.create_dataset_yaml out).names.length
      ∧ (TrainDentalYolo.create_dataset_yaml out).names
        = TrainDentalYolo.classes
      ∧ (TrainDentalYolo.create_dataset_yaml out).nc
        = (TrainDentalYolo.create_dataset_yaml out).names.length :=
  ⟨rfl, rfl, rfl, rfl⟩

/-- Claim C3: for every split fraction outside `[0.5, 0.9]` the script's
entry point exits with status 1 and leaves the file-system state
untouched (no file or directory written). -/
theorem C3_invalid_split_rejected (out : String) (count : ℕ) (f : ℚ)
    (fs : FS) (h : f < 1/2 ∨ 9/10 < f) :
    CreateDentalDataset.main_run out count f fs = (1, fs) := by
  have hn : ¬ (1/2 ≤ f ∧ f ≤ 9/10) := by
    rcases h with h | h
    · exact fun hx => absurd hx.1 (not_le.2 h)
    · exact fun hx => absurd hx.2 (not_le.2 h)
  unfold CreateDentalDataset.main_run
  rw [if_neg hn]

/-- Claim C3 witness: split 0.95 on an empty file system is rejected
with exit status 1 and no writes. -/
theorem C3_witness :
    CreateDentalDataset.main_run "dental_dataset" 10 (19/20) ⟨[], []⟩
      = (1, ⟨[], []⟩) :=
  C3_invalid_split_rejected "dental_dataset" 10 (19/20) ⟨[], []⟩
    (Or.inr (by norm_num))

/-- Claim C1: every annotation emitted by either generator has its class
index in `[0, class_count)`, its center coordinates in `[0,1]` and its
width and height in `[0.1, 0.8]`; the fixed-box generator clamps each
field into range, and the multi-label generator samples within range. -/
theorem C1_emitted_annotations_in_range :
    (∀ (path cond : String) (u1 u2 : ℚ),
      cond ∈ CreateDentalDataset.classes →
      annInRange CreateDentalDataset.classes.length
        (CreateDentalDataset.createAnn path cond
          (CreateDentalDataset.classes.indexOf cond) u1 u2))
    ∧ (∀ (cond : String) (u1 u2 u3 u4 : ℚ),
      cond ∈ TrainDentalYolo.classes →
      0 ≤ u1 → u1 ≤ 1 → 0 ≤ u2 → u2 ≤ 1 →
      0 ≤ u3 → u3 ≤ 1 → 0 ≤ u4 → u4 ≤ 1 →
      annInRange TrainDentalYolo.classes.length
        (TrainDentalYolo.synthAnn cond u1 u2 u3 u4)) := by
  constructor
  · intro path cond u1 u2 hmem
    exact createAnn_in_range path cond _ u1 u2 (List.indexOf_lt_length.2 hmem)
  · intro cond u1 u2 u3 u4 hmem h1 h1' h2 h2' h3 h3' h4 h4'
    exact synthAnn_in_range cond u1 u2 u3 u4 hmem h1 h1' h2 h2' h3 h3' h4 h4'

/-- Claim C1 witness: the bounds at the condition cavity with concrete
seeds, for both generators. -/
theorem C1_witness :
    annInRange CreateDentalDataset.classes.length
        (CreateDentalDataset.createAnn "img.jpg" "cavity"
          (CreateDentalDataset.classes.indexOf "cavity") 0 1)
      ∧ annInRange TrainDentalYolo.classes.length
        (TrainDentalYolo.synthAnn "cavity" 0 1 0 1) :=
  ⟨C1_emitted_annotations_in_range.1 "img.jpg" "cavity" 0 1 (by decide),
   C1_emitted_annotations_in_range.2 "cavity" 0 1 0 1 (by decide)
     le_rfl zero_le_one zero_le_one le_rfl le_rfl zero_le_one zero_le_one
     le_rfl⟩

/-- Claim C9: in the multi-label generator every sampled box lies
entirely inside the image: with center-x in `[0.2, 0.8]`, center-y in
`[0.3, 0.7]` and extents in `[0.1, 0.3]`, every horizontal box edge lies
in `[0.05, 0.95]` and every vertical box edge in `[0.15, 0.85]`. -/
theorem C9_synth_box_edges_inside (cond : String) (u1 u2 u3 u4 : ℚ)
    (h1 : 0 ≤ u1) (h1' : u1 ≤ 1) (h2 : 0 ≤ u2) (h2' : u2 ≤ 1)
    (h3 : 0 ≤ u3) (h3' : u3 ≤ 1) (h4 : 0 ≤ u4) (h4' : u4 ≤ 1) :
    boxEdgesWithin (TrainDentalYolo.synthAnn cond u1 u2 u3 u4)
      (1/20) (19/20) (3/20) (17/20) := by
  unfold boxEdgesWithin TrainDentalYolo.synthAnn uniformQ
  dsimp only
  refine ⟨by nlinarith, by nlinarith, by nlinarith, by nlinarith,
    by nlinarith, by nlinarith, by nlinarith, by nlinarith⟩

/-- Claim C9 witness: the edge bounds at condition cavity with concrete
seeds. -/
theorem C9_witness :
    boxEdgesWithin (TrainDentalYolo.synthAnn "cavity" 0 1 1 0)
      (1/20) (19/20) (3/20) (17/20) :=
  C9_synth_box_edges_inside "cavity" 0 1 1 0
    le_rfl zero_le_one zero_le_one le_rfl zero_le_one le_rfl le_rfl
    zero_le_one

/-- Rounding to the nearest integer overshoots by at most one half. -/
theorem rne_le (q : ℚ) : (rne q : ℚ) ≤ q + 1/2 := by
  unfold rne
  have hf := Int.floor_le q
  have hf' := Int.lt_floor_add_one q
  split
  · linarith
  · split
    · push_cast
      linarith
    · split <;> push_cast <;> linarith

/-- Rounding to the nearest integer undershoots by at most one half. -/
theorem rne_ge (q : ℚ) : q - 1/2 ≤ (rne q : ℚ) := by
  unfold rne
  have hf := Int.floor_le q
  have hf' := Int.lt_floor_add_one q
  split
  · linarith
  · split
    · push_cast
      linarith
    · split <;> push_cast <;> linarith

/-- Characterization of the binary exponent by its bracketing powers. -/
theorem int_log2_eq (q : ℚ) (n : ℤ) (hq : 0 < q)
    (h1 : (2:ℚ) ^ n ≤ q) (h2 : q < (2:ℚ) ^ (n + 1)) : Int.log 2 q = n := by
  have hb : (1 : ℕ) < 2 := by norm_num
  have ha := Int.zpow_log_le_self (R := ℚ) hb hq
  have hc := Int.lt_zpow_succ_log_self (R := ℚ) hb q
  push_cast at ha hc
  by_contra hne
  rcases lt_or_gt_of_ne hne with hlt | hgt
  · have : (2:ℚ) ^ (Int.log 2 q + 1) ≤ (2:ℚ) ^ n :=
      (zpow_le_zpow_iff_right₀ (by norm_num : (1:ℚ) < 2)).mpr (by omega)
    linarith
  · have : (2:ℚ) ^ (n + 1) ≤ (2:ℚ) ^ (Int.log 2 q) :=
      (zpow_le_zpow_iff_right₀ (by norm_num : (1:ℚ) < 2)).mpr (by omega)
    linarith

/-- Zero is a binary64 value. -/
theorem fpRound_zero : fpRound 0 = 0 := by
  unfold fpRound
  simp

/-- Correct rounding to 53 bits has relative error at most `2 ^ (-53)`
on positive values: a half unit in the last place of the significand. -/
theorem fpRound_abs_sub_le (q : ℚ) (hq : 0 < q) :
    |fpRound q - q| ≤ q / 2 ^ (53:ℤ) := by
  unfold fpRound
  rw [if_neg (ne_of_gt hq)]
  set s : ℤ := Int.log 2 q - 52 with hs
  have hsp : (0:ℚ) < 2 ^ s := by positivity
  have h1 := rne_le (q / 2 ^ s)
  have h2 := rne_ge (q / 2 ^ s)
  have hlog : (2:ℚ) ^ (Int.log 2 q) ≤ q := by
    have := Int.zpow_log_le_self (R := ℚ) (b := 2) (by norm_num) hq
    push_cast at this
    exact this
  have hq52 : (2:ℚ) ^ s * (1/2) ≤ q / 2 ^ (53:ℤ) := by
    rw [le_div_iff₀ (by positivity : (0:ℚ) < 2 ^ (53:ℤ))]
    have hcollapse : (2:ℚ) ^ s * (1/2) * 2 ^ (53:ℤ) = 2 ^ (Int.log 2 q) := by
      rw [show (1:ℚ)/2 = 2 ^ (-1 : ℤ) by norm_num, ← zpow_add₀
        (by norm_num : (2:ℚ) ≠ 0), ← zpow_add₀ (by norm_num : (2:ℚ) ≠ 0)]
      congr 1
      omega
    rw [hcollapse]
    exact hlog
  have hup : (rne (q / 2 ^ s) : ℚ) * 2 ^ s ≤ (q / 2 ^ s + 1/2) * 2 ^ s :=
    mul_le_mul_of_nonneg_right h1 (le_of_lt hsp)
  have hdn : (q / 2 ^ s - 1/2) * 2 ^ s ≤ (rne (q / 2 ^ s) : ℚ) * 2 ^ s :=
    mul_le_mul_of_nonneg_right h2 (le_of_lt hsp)
  have hupeq : (q / 2 ^ s + 1/2) * 2 ^ s = q + 2 ^ s * (1/2) := by
    field_simp
    ring
  have hdneq : (q / 2 ^ s - 1/2) * 2 ^ s = q - 2 ^ s * (1/2) := by
    field_simp
    ring
  rw [abs_le]
  constructor <;> nlinarith

/-- Rounding a nonnegative value to binary64 stays nonnegative. -/
theorem fpRound_nonneg (q : ℚ) (hq : 0 ≤ q) : 0 ≤ fpRound q := by
  rcases eq_or_lt_of_le hq with h | h
  · rw [← h, fpRound_zero]
  · have hb := fpRound_abs_sub_le q h
    rw [abs_le] at hb
    have : q / 2 ^ (53:ℤ) < q := by
      rw [div_lt_iff₀ (by positivity : (0:ℚ) < 2 ^ (53:ℤ))]
      nlinarith [h, (by norm_num : (1:ℚ) < 2 ^ (53:ℤ))]
    linarith [hb.1]

/-- Upper error bound of binary64 rounding on positive values. -/
theorem fpRound_le (q : ℚ) (hq : 0 < q) : fpRound q ≤ q + q / 2 ^ (53:ℤ) := by
  have hb := fpRound_abs_sub_le q hq
  rw [abs_le] at hb
  linarith [hb.2]

/-- The double nearest to `0.8` does not exceed the accepted bound. -/
theorem fpRound_four_fifths_le : fpRound (4/5 : ℚ) ≤ 9/10 := by
  have hb := fpRound_le (4/5 : ℚ) (by norm_num)
  have hpow : (2:ℚ) ^ (53:ℤ) = 9007199254740992 := by norm_num
  rw [hpow] at hb
  linarith

/-- Cast of the training count: for a nonnegative split it is the
truncation of the rounded binary64 product. -/
theorem num_train_cast (N : ℕ) (f : ℚ) (h0 : 0 ≤ f) :
    ((CreateDentalDataset.num_train N f : ℕ) : ℤ)
      = ⌊fpRound ((N : ℚ) * f)⌋ := by
  unfold CreateDentalDataset.num_train
  exact Int.toNat_of_nonneg (Int.floor_nonneg.2
    (fpRound_nonneg _ (mul_nonneg (Nat.cast_nonneg N) h0)))

/-- For a split of at most `9/10` the training count is at most the
total, with room to spare for the rounding error. -/
theorem num_train_le (N : ℕ) (f : ℚ) (h0 : 0 ≤ f) (h1 : f ≤ 9/10) :
    CreateDentalDataset.num_train N f ≤ N := by
  unfold CreateDentalDataset.num_train
  rw [Int.toNat_le]
  have hN : (0:ℚ) ≤ (N : ℚ) := Nat.cast_nonneg N
  have hx : 0 ≤ (N : ℚ) * f := mul_nonneg hN h0
  have hxN : (N : ℚ) * f ≤ 9/10 * (N : ℚ) := by
    rw [mul_comm (9/10 : ℚ)]
    exact mul_le_mul_of_nonneg_left h1 hN
  have hfp : fpRound ((N : ℚ) * f) < (N : ℚ) + 1 := by
    rcases eq_or_lt_of_le hx with h | h
    · rw [← h, fpRound_zero]
      positivity
    · have hb := fpRound_le _ h
      have hpow : (2:ℚ) ^ (53:ℤ) = 9007199254740992 := by norm_num
      rw [hpow] at hb
      linarith
  have hlt : ⌊fpRound ((N : ℚ) * f)⌋ < (N : ℤ) + 1 :=
    Int.floor_lt.2 (by push_cast; exact hfp)
  omega

/-- Cast of the validation count: total minus the training count. -/
theorem num_val_cast (N : ℕ) (f : ℚ) (h0 : 0 ≤ f) (h1 : f ≤ 9/10) :
    ((CreateDentalDataset.num_val N f : ℕ) : ℤ)
      = (N : ℤ) - ⌊fpRound ((N : ℚ) * f)⌋ := by
  unfold CreateDentalDataset.num_val
  rw [Nat.cast_sub (num_train_le N f h0 h1), num_train_cast N f h0]

/-- Binary exponent of the product `10 * double(0.6)`: the value is just
below `6`, inside `[4, 8)`. -/
theorem log2_prod_ce :
    Int.log 2 ((27021597764222975:ℚ)/4503599627370496) = 2 := by
  apply int_log2_eq _ _ (by norm_num)
  · norm_num
  · norm_num

/-- The scaled significand of that product rounds up to the next
integer (fractional part three quarters). -/
theorem rne_prod_ce : rne ((27021597764222975:ℚ)/4) = 6755399441055744 := by
  have hf : ⌊(27021597764222975:ℚ)/4⌋ = 6755399441055743 := by norm_num
  unfold rne
  rw [hf]
  norm_num

/-- The binary64 product `10 * double(0.6)` rounds to exactly `6`. -/
theorem fpRound_prod_ce :
    fpRound ((27021597764222975:ℚ)/4503599627370496) = 6 := by
  unfold fpRound
  rw [if_neg (by norm_num), log2_prod_ce]
  norm_num
  rw [rne_prod_ce]
  norm_num

/-- Claim C2 counterexample: at total 10 and the accepted split
`double(0.6) = 5404319552844595 / 2 ^ 53`, the program generates
`int(10 * 0.6) = 6` training samples while `⌊N * f⌋ = 5`: the claimed
exact-floor count is false of the binary64 computation. -/
theorem C2_counterexample :
    (1/2 ≤ (5404319552844595/9007199254740992 : ℚ)
        ∧ (5404319552844595/9007199254740992 : ℚ) ≤ 9/10)
      ∧ ¬ (((CreateDentalDataset.train_image_files "dental_dataset" 10
            (5404319552844595/9007199254740992)).length : ℤ)
          = ⌊(10 : ℚ) * (5404319552844595/9007199254740992)⌋) := by
  constructor
  · constructor <;> norm_num
  · have hlen : (CreateDentalDataset.train_image_files "dental_dataset" 10
        (5404319552844595/9007199254740992)).length
        = CreateDentalDataset.num_train 10
          (5404319552844595/9007199254740992) := by
      simp [CreateDentalDataset.train_image_files]
    have hmul : (10:ℚ) * (5404319552844595/9007199254740992)
        = 27021597764222975/4503599627370496 := by norm_num
    have hfp : CreateDentalDataset.num_train 10
        (5404319552844595/9007199254740992) = 6 := by
      unfold CreateDentalDataset.num_train
      push_cast
      rw [hmul, fpRound_prod_ce]
      norm_num
      decide
    rw [hlen, hfp, hmul]
    norm_num

/-- Claim C2 as amended: for every total `N` and accepted split `f` (the
double the program holds), the number of training samples generated is
the truncation of the correctly rounded binary64 product `N * f` - which
equals `⌊N * f⌋` whenever rounding does not cross an integer, but not in
general - and the number of validation samples is `N` minus that count;
the multi-label generator uses the stored double for `0.8`. -/
theorem C2_split_by_float_truncation :
    (∀ (out : String) (N : ℕ) (f : ℚ), 1/2 ≤ f → f ≤ 9/10 →
      ((CreateDentalDataset.train_image_files out N f).length : ℤ)
          = ⌊fpRound ((N : ℚ) * f)⌋
        ∧ ((CreateDentalDataset.val_image_files out N f).length : ℤ)
          = (N : ℤ) - ⌊fpRound ((N : ℚ) * f)⌋)
    ∧ (∀ (out : String) (N : ℕ),
      ((TrainDentalYolo.train_image_files out N).length : ℤ)
          = ⌊fpRound ((N : ℚ) * fpRound (4/5))⌋
        ∧ ((TrainDentalYolo.val_image_files out N).length : ℤ)
          = (N : ℤ) - ⌊fpRound ((N : ℚ) * fpRound (4/5))⌋) := by
  constructor
  · intro out N f hf1 hf2
    have h0 : 0 ≤ f := le_trans (by norm_num) hf1
    constructor
    · rw [show (CreateDentalDataset.train_image_files out N f).length
            = CreateDentalDataset.num_train N f by
          simp [CreateDentalDataset.train_image_files]]
      exact num_train_cast N f h0
    · rw [show (CreateDentalDataset.val_image_files out N f).length
            = CreateDentalDataset.num_val N f by
          simp [CreateDentalDataset.val_image_files]]
      exact num_val_cast N f h0 hf2
  · intro out N
    have h0 : 0 ≤ fpRound (4/5 : ℚ) := fpRound_nonneg _ (by norm_num)
    constructor
    · rw [show (TrainDentalYolo.train_image_files out N).length
            = CreateDentalDataset.num_train N (fpRound (4/5)) by
          simp [TrainDentalYolo.train_image_files,
            TrainDentalYolo.train_count, CreateDentalDataset.num_train]]
      exact num_train_cast N (fpRound (4/5)) h0
    · rw [show (TrainDentalYolo.val_image_files out N).length
            = CreateDentalDataset.num_val N (fpRound (4/5)) by
          simp [TrainDentalYolo.val_image_files, TrainDentalYolo.val_count,
            TrainDentalYolo.train_count, CreateDentalDataset.num_val,
            CreateDentalDataset.num_train]]
      exact num_val_cast N (fpRound (4/5)) h0 fpRound_four_fifths_le

/-- Claim C2 witness: the amended count equalities at ten images and the
accepted split value `4/5`. -/
theorem C2_witness :
    ((CreateDentalDataset.train_image_files "d" 10 (4/5)).length : ℤ)
        = ⌊fpRound ((10 : ℚ) * (4/5))⌋
      ∧ ((CreateDentalDataset.val_image_files "d" 10 (4/5)).length : ℤ)
        = (10 : ℤ) - ⌊fpRound ((10 : ℚ) * (4/5))⌋ :=
  C2_split_by_float_truncation.1 "d" 10 (4/5) (by norm_num) (by norm_num)

/-- Claim C5: in both scripts and both splits, one label file is written
per image file, over the same index range, and the two filenames of
sample `i` share the same zero-padded stem, differing only in
extension. -/
theorem C5_label_per_image (out : String) (N : ℕ) (f : ℚ) :
    ((CreateDentalDataset.train_image_files out N f).length
        = (CreateDentalDataset.train_label_files out N f).length
      ∧ (CreateDentalDataset.val_image_files out N f).length
        = (CreateDentalDataset.val_label_files out N f).length
      ∧ (∀ i : ℕ,
          CreateDentalDataset.train_img_name i
              = CreateDentalDataset.train_stem i ++ ".jpg"
            ∧ CreateDentalDataset.train_lbl_name i
              = CreateDentalDataset.train_stem i ++ ".txt")
      ∧ (∀ i : ℕ,
          CreateDentalDataset.val_img_name i
              = CreateDentalDataset.val_stem i ++ ".jpg"
            ∧ CreateDentalDataset.val_lbl_name i
              = CreateDentalDataset.val_stem i ++ ".txt"))
    ∧ ((TrainDentalYolo.train_image_files out N).length
        = (TrainDentalYolo.train_label_files out N).length
      ∧ (TrainDentalYolo.val_image_files out N).length
        = (TrainDentalYolo.val_label_files out N).length
      ∧ (∀ i : ℕ,
          TrainDentalYolo.train_img_name i
              = TrainDentalYolo.train_stem i ++ ".jpg"
            ∧ TrainDentalYolo.train_lbl_name i
              = TrainDentalYolo.train_stem i ++ ".txt")
      ∧ (∀ i : ℕ,
          TrainDentalYolo.val_img_name i
              = TrainDentalYolo.val_stem i ++ ".jpg"
            ∧ TrainDentalYolo.val_lbl_name i
              = TrainDentalYolo.val_stem i ++ ".txt")) := by
  refine ⟨⟨?_, ?_, fun i => ⟨rfl, rfl⟩, fun i => ⟨rfl, rfl⟩⟩,
    ⟨?_, ?_, fun i => ⟨rfl, rfl⟩, fun i => ⟨rfl, rfl⟩⟩⟩
  · simp [CreateDentalDataset.train_image_files,
      CreateDentalDataset.train_label_files]
  · simp [CreateDentalDataset.val_image_files,
      CreateDentalDataset.val_label_files]
  · simp [TrainDentalYolo.train_image_files,
      TrainDentalYolo.train_label_files]
  · simp [TrainDentalYolo.val_image_files,
      TrainDentalYolo.val_label_files]

/-- Claim C6: with several conditions drawn on one image, the annotation
builder runs once per drawn condition and the label file holds exactly
one line per annotation, in draw order: the `i`-th annotation and the
`i`-th line come from the `i`-th drawn condition. -/
theorem C6_one_line_per_drawn_condition (draws : List TrainDentalYolo.Draw) :
    (TrainDentalYolo.gen_synth_anns draws).length = draws.length
      ∧ (TrainDentalYolo.label_file_lines
          (TrainDentalYolo.gen_synth_anns draws)).length = draws.length
      ∧ ∀ (i : ℕ) (h : i < draws.length),
          (TrainDentalYolo.gen_synth_anns draws)[i]?
              = some (TrainDentalYolo.synthAnnOf (draws.get ⟨i, h⟩))
            ∧ (TrainDentalYolo.label_file_lines
                (TrainDentalYolo.gen_synth_anns draws))[i]?
              = some (annLine (TrainDentalYolo.synthAnnOf (draws.get ⟨i, h⟩))) := by
  refine ⟨?_, ?_, ?_⟩
  · simp [TrainDentalYolo.gen_synth_anns]
  · simp [TrainDentalYolo.gen_synth_anns, TrainDentalYolo.label_file_lines]
  · intro i h
    constructor
    · simp [TrainDentalYolo.gen_synth_anns, List.getElem?_map,
        List.getElem?_eq_getElem h]
    · simp [TrainDentalYolo.gen_synth_anns, TrainDentalYolo.label_file_lines,
        List.getElem?_map, List.getElem?_eq_getElem h]

/-- Claim C6 witness: a two-condition draw, looking at index 1. -/
theorem C6_witness :
    (TrainDentalYolo.gen_synth_anns
        [⟨"cavity", 0, 0, 0, 0⟩, ⟨"plaque", 1, 1, 1, 1⟩])[1]?
        = some (TrainDentalYolo.synthAnnOf
          (([⟨"cavity", 0, 0, 0, 0⟩, ⟨"plaque", 1, 1, 1, 1⟩] :
            List TrainDentalYolo.Draw).get ⟨1, by decide⟩))
      ∧ (TrainDentalYolo.label_file_lines (TrainDentalYolo.gen_synth_anns
          [⟨"cavity", 0, 0, 0, 0⟩, ⟨"plaque", 1, 1, 1, 1⟩]))[1]?
        = some (annLine (TrainDentalYolo.synthAnnOf
          (([⟨"cavity", 0, 0, 0, 0⟩, ⟨"plaque", 1, 1, 1, 1⟩] :
            List TrainDentalYolo.Draw).get ⟨1, by decide⟩))) :=
  (C6_one_line_per_drawn_condition
    [⟨"cavity", 0, 0, 0, 0⟩, ⟨"plaque", 1, 1, 1, 1⟩]).2.2 1 (by decide)

/-- Claim C7: running the dataset assembler twice with the same output
root and parameters succeeds both times; the second run recreates the
same directories with `exist_ok` and rewrites the same index-keyed
paths, so it leaves the state of the first run unchanged. -/
theorem C7_second_run_overwrites (fs : FS) (out : String) (N : ℕ) (f : ℚ) :
    ∃ fs1 fs2,
      CreateDentalDataset.create_dataset_run fs out N f = .ok fs1
        ∧ CreateDentalDataset.create_dataset_run fs1 out N f = .ok fs2
        ∧ fs2 = fs1 := by
  refine ⟨_, _, create_dataset_run_eq fs out N f, create_dataset_run_eq _ out N f, ?_⟩
  set g := mkdirT (mkdirT (mkdirT (mkdirT fs (out ++ "/images/train"))
    (out ++ "/images/val")) (out ++ "/labels/train")) (out ++ "/labels/val")
    with hg
  set fs1 := (CreateDentalDataset.all_output_files out N f).foldl write_file g
    with hfs1
  have hd1 : (out ++ "/images/train") ∈ fs1.dirs := by
    rw [hfs1, foldl_write_dirs, hg]
    exact mkdirT_mem_mono _ _ _ (mkdirT_mem_mono _ _ _
      (mkdirT_mem_mono _ _ _ (mkdirT_mem_self _ _)))
  have hd2 : (out ++ "/images/val") ∈ fs1.dirs := by
    rw [hfs1, foldl_write_dirs, hg]
    exact mkdirT_mem_mono _ _ _ (mkdirT_mem_mono _ _ _ (mkdirT_mem_self _ _))
  have hd3 : (out ++ "/labels/train") ∈ fs1.dirs := by
    rw [hfs1, foldl_write_dirs, hg]
    exact mkdirT_mem_mono _ _ _ (mkdirT_mem_self _ _)
  have hd4 : (out ++ "/labels/val") ∈ fs1.dirs := by
    rw [hfs1, foldl_write_dirs, hg]
    exact mkdirT_mem_self _ _
  have hfiles : ∀ p ∈ CreateDentalDataset.all_output_files out N f,
      p ∈ fs1.files := fun p hp => foldl_write_mem_all _ _ _ hp
  rw [mkdirT_of_mem _ _ hd1, mkdirT_of_mem _ _ hd2, mkdirT_of_mem _ _ hd3,
    mkdirT_of_mem _ _ hd4]
  exact foldl_write_of_all_mem _ _ hfiles

/-- Claim C8: each library-backed stage returns a boolean; an exception
inside it is caught where it is raised, exactly one human-readable
diagnostic line is printed, and the caller turns a false result of
either single invocation into exit status 1 (0 when both succeed). -/
theorem C8_stage_failures_as_exit_codes :
    (∀ msg : String, train_yolo_model (.raises msg)
        = (false, ["Training failed: " ++ msg]))
      ∧ (∀ (msg : String) (found : Bool),
        convert_to_coreml (.raises msg) found
          = (false, ["CoreML conversion failed: " ++ msg]))
      ∧ (∀ (t c : LibOutcome) (found : Bool),
        (train_yolo_model t).1 = false → yolo_main t c found = 1)
      ∧ (∀ (t c : LibOutcome) (found : Bool),
        (convert_to_coreml c found).1 = false → yolo_main t c found = 1)
      ∧ (∀ (t c : LibOutcome) (found : Bool),
        (train_yolo_model t).1 = true → (convert_to_coreml c found).1 = true →
          yolo_main t c found = 0) := by
  refine ⟨fun msg => rfl, fun msg found => rfl, ?_, ?_, ?_⟩
  · intro t c found ht
    unfold yolo_main
    rw [if_pos ht]
  · intro t c found hc
    unfold yolo_main
    by_cases ht : (train_yolo_model t).1 = false
    · rw [if_pos ht]
    · rw [if_neg ht, if_pos hc]
  · intro t c found ht hc
    unfold yolo_main
    rw [if_neg (by simp [ht]), if_neg (by simp [hc])]

/-- Claim C8 witness: a training exception surfaces as exit status 1. -/
theorem C8_witness :
    yolo_main (LibOutcome.raises "cuda out of memory") LibOutcome.ok true = 1 :=
  C8_stage_failures_as_exit_codes.2.2.1
    (LibOutcome.raises "cuda out of memory") LibOutcome.ok true rfl
